import Mathlib

/-!
Shallow embedding of `src/server.js` (the websocket chat relay): in-memory
stores (`channels`, `users`, `bannedUsernames`, `bannedIPs`), the connection
admission check, the per-event handlers dispatched by `handleMessage`, the
`close` handler, and the 60-second expiry sweep.

Modelling conventions:
* A websocket handle (`ws`) is an opaque connection id (`ConnId := Nat`).
* JavaScript `Date` values are milliseconds since epoch (`Nat`); each handler
  receives the current time `now` explicitly where the source calls
  `new Date()` / `Date.now()`.
* `generateId()` is nondeterministic in the source (time + random); handlers
  that call it receive the fresh id as an explicit argument `newId`.
* Handlers return a `StepOut`: the new store state, the ordered list of
  `ws.send` effects (recipient connection id paired with the payload), and the
  list of connections the handler called `.terminate()` on.  The `close` event
  that `terminate()` triggers is applied afterwards by `serverStep`.
* `wss.clients` is the `clients` list of the state; `broadcast` sends to every
  client in it (readyState OPEN is modelled as membership, minus connections
  terminated earlier in the same handler).
-/

abbrev ConnId := Nat

/-- One entry of the `users` map: `{ username, id, ip, isAdmin, muteExpires }`. -/
structure User where
  username : String
  id : String
  ip : String
  isAdmin : Bool
  muteExpires : Option Nat
  deriving DecidableEq, Repr

/-- A stored chat message as built in `handleChatMessage`. -/
structure ChatMsg where
  id : String
  author : String
  text : String
  channel : String
  timestamp : Nat
  isAdmin : Bool
  deriving DecidableEq, Repr

/-- An entry of the user list built in `broadcastUserList`. -/
structure UserEntry where
  username : String
  isAdmin : Bool
  isMuted : Bool
  deriving DecidableEq, Repr

/-- Outbound payloads (`ws.send(JSON.stringify({type: ..., ...}))`). -/
inductive OutMsg where
  | connected (message : String)
  | joined (username : String) (channelNames : List String)
  | userList (users : List UserEntry)
  | chat (message : ChatMsg)
  | history (channel : String) (messages : List ChatMsg)
  | typing (username : String) (channel : String) (isTyping : Bool)
  | muted (reason : String)
  | adminConfirm (message : String)
  | error (message : String) (kick : Bool)
  | info (message : String)
  deriving DecidableEq, Repr

/-- The in-memory server state: `channels`, `users`, `bannedUsernames`,
`bannedIPs` plus the set of open sockets `wss.clients`. -/
structure ServerState where
  channels : List (String × List ChatMsg)
  users : List (ConnId × User)
  bannedUsernames : List String
  bannedIPs : List (String × Nat)
  clients : List ConnId
  deriving DecidableEq, Repr

/-- Result of one handler invocation: new state, ordered sends, and the
sockets on which the handler called `terminate()`. -/
structure StepOut where
  state : ServerState
  sends : List (ConnId × OutMsg)
  terminated : List ConnId
  deriving DecidableEq, Repr

/-- Model of `channels[channel]` lookup (an empty history is truthy in JS, so a present
key with `[]` is still found). -/
def lookupChannel : List (String × List ChatMsg) → String → Option (List ChatMsg)
  | [], _ => none
  | p :: rest, name => if p.1 = name then some p.2 else lookupChannel rest name

/-- Model of `channels[channel] = hist` (overwrite if present, add if absent). -/
def setChannel (chs : List (String × List ChatMsg)) (name : String)
    (hist : List ChatMsg) : List (String × List ChatMsg) :=
  match chs with
  | [] => [(name, hist)]
  | p :: rest =>
      if p.1 = name then (name, hist) :: rest
      else p :: setChannel rest name hist

/-- Model of `users.get(ws)`. -/
def lookupUser : List (ConnId × User) → ConnId → Option User
  | [], _ => none
  | p :: rest, ws => if p.1 = ws then some p.2 else lookupUser rest ws

/-- Model of `users.set(ws, u)`: replace in place if the key exists, else append
(JS `Map` insertion order). -/
def setUser (us : List (ConnId × User)) (ws : ConnId) (u : User) :
    List (ConnId × User) :=
  match us with
  | [] => [(ws, u)]
  | p :: rest =>
      if p.1 = ws then (ws, u) :: rest
      else p :: setUser rest ws u

/-- Model of `users.delete(ws)`. -/
def deleteUser (us : List (ConnId × User)) (ws : ConnId) :
    List (ConnId × User) :=
  us.filter (fun p => p.1 ≠ ws)

/-- Model of `bannedIPs.get(ip)`. -/
def lookupBannedIP : List (String × Nat) → String → Option Nat
  | [], _ => none
  | p :: rest, ip => if p.1 = ip then some p.2 else lookupBannedIP rest ip

/-- Model of `bannedIPs.set(ip, { expires })`. -/
def setBannedIP (bans : List (String × Nat)) (ip : String) (expires : Nat) :
    List (String × Nat) :=
  match bans with
  | [] => [(ip, expires)]
  | p :: rest =>
      if p.1 = ip then (ip, expires) :: rest
      else p :: setBannedIP rest ip expires

/-- Model of `bannedIPs.delete(ip)`. -/
def deleteBannedIP (bans : List (String × Nat)) (ip : String) :
    List (String × Nat) :=
  bans.filter (fun p => p.1 ≠ ip)

/-- Model of `bannedUsernames.add(name)` (a `Set`: adding a member is a no-op). -/
def addBannedUsername (set : List String) (name : String) : List String :=
  if name ∈ set then set else set ++ [name]

/-- Model of `findUserByUsername(username)`: linear scan over `users.values()`,
first match (case-sensitive `===`). -/
def findUserByUsername : List (ConnId × User) → String → Option User
  | [], _ => none
  | p :: rest, username =>
      if p.2.username = username then some p.2
      else findUserByUsername rest username

/-- Model of `findSocketByUsername(username)`: same scan, returning the socket. -/
def findSocketByUsername : List (ConnId × User) → String → Option ConnId
  | [], _ => none
  | p :: rest, username =>
      if p.2.username = username then some p.1
      else findSocketByUsername rest username

/-- Model of `calculateExpiry(durationMinutes)`: duration 0 encodes "permanent" as
`now + 100 years` in milliseconds. -/
def calculateExpiry (now : Nat) (durationMinutes : Nat) : Nat :=
  if durationMinutes = 0 then now + 100 * 365 * 24 * 60 * 60 * 1000
  else now + durationMinutes * 60 * 1000

/-- Model of `Math.round(d / 60000)` for a nonnegative millisecond difference `d`
(JS rounds .5 up). -/
def jsRoundMinutes (d : Nat) : Nat :=
  (d + 30000) / 60000

/-- Model of `broadcast(message, excludeWs)`: send the payload to every open client
except `excludeWs`. -/
def broadcastSends (clients : List ConnId) (msg : OutMsg)
    (excludeWs : Option ConnId) : List (ConnId × OutMsg) :=
  (clients.filter (fun c => excludeWs ≠ some c)).map (fun c => (c, msg))

/-- The user list built in `broadcastUserList`: `isMuted` is computed from
`muteExpires > new Date()` at call time. -/
def userListEntries (us : List (ConnId × User)) (now : Nat) : List UserEntry :=
  us.map (fun p =>
    ⟨p.2.username, p.2.isAdmin,
      match p.2.muteExpires with
      | some e => decide (now < e)
      | none => false⟩)

/-- Model of `broadcastUserList()`: broadcast the current user list to all clients. -/
def broadcastUserListSends (st : ServerState) (now : Nat) :
    List (ConnId × OutMsg) :=
  broadcastSends st.clients (.userList (userListEntries st.users now)) none

/-- Model of `handleJoin(ws, message, ip)`: ban check, duplicate-username check, then
create the session, unicast `joined`, broadcast the user list. -/
def handleJoin (st : ServerState) (ws : ConnId) (username : String)
    (isAdmin : Bool) (ip : String) (newId : String) (now : Nat) : StepOut :=
  if username ∈ st.bannedUsernames then
    ⟨st, [(ws, .error "This username is banned." true)], [ws]⟩
  else if (findUserByUsername st.users username).isSome then
    ⟨st, [(ws, .error "This username is already taken." true)], [ws]⟩
  else
    let st2 := { st with
      users := setUser st.users ws ⟨username, newId, ip, isAdmin, none⟩ }
    ⟨st2, (ws, .joined username (st2.channels.map (·.1))) ::
      broadcastUserListSends st2 now, []⟩

/-- The channel-store append of `handleChatMessage`: `push`, then `shift`
exactly once if the length exceeded 100. -/
def appendBounded (hist : List ChatMsg) (m : ChatMsg) : List ChatMsg :=
  let h2 := hist ++ [m]
  if 100 < h2.length then h2.tail else h2

/-- The storage-and-broadcast tail of `handleChatMessage` (after the session
and mute checks): store into the channel if it exists (a missing channel is
only logged), then broadcast the chat message to all clients. -/
def postChat (st : ServerState) (user : User) (channel text : String)
    (now : Nat) (newId : String) : StepOut :=
  let chatMessage : ChatMsg := ⟨newId, user.username, text, channel, now, user.isAdmin⟩
  let st2 :=
    match lookupChannel st.channels channel with
    | some hist => { st with channels := setChannel st.channels channel (appendBounded hist chatMessage) }
    | none => st
  ⟨st2, broadcastSends st2.clients (.chat chatMessage) none, []⟩

/-- Model of `handleChatMessage(ws, message)`: drop if no session; reject with the
remaining-minutes error if `muteExpires > now`; otherwise store + broadcast. -/
def handleChatMessage (st : ServerState) (ws : ConnId) (channel text : String)
    (now : Nat) (newId : String) : StepOut :=
  match lookupUser st.users ws with
  | none => ⟨st, [], []⟩
  | some user =>
      match user.muteExpires with
      | some e =>
          if now < e then
            let remaining := jsRoundMinutes (e - now)
            ⟨st, [(ws, .error s!"You are muted. Expires in {remaining} minutes." false)], []⟩
          else postChat st user channel text now newId
      | none => postChat st user channel text now newId

/-- Model of `handleGetHistory(ws, message)`: unicast the stored history, or an empty
list for an unknown channel (no session check in the source). -/
def handleGetHistory (st : ServerState) (ws : ConnId) (channel : String) :
    StepOut :=
  match lookupChannel st.channels channel with
  | some hist => ⟨st, [(ws, .history channel hist)], []⟩
  | none => ⟨st, [(ws, .history channel [])], []⟩

/-- Model of `handleTyping(ws, message)`: drop if no session or muted now; otherwise
broadcast to everyone except the sender. -/
def handleTyping (st : ServerState) (ws : ConnId) (channel : String)
    (isTyping : Bool) (now : Nat) : StepOut :=
  match lookupUser st.users ws with
  | none => ⟨st, [], []⟩
  | some user =>
      match user.muteExpires with
      | some e =>
          if now < e then ⟨st, [], []⟩
          else ⟨st, broadcastSends st.clients (.typing user.username channel isTyping) (some ws), []⟩
      | none => ⟨st, broadcastSends st.clients (.typing user.username channel isTyping) (some ws), []⟩

/-- Mutate the first user record matching `username` (the object returned by
`findUserByUsername`), setting its `muteExpires`. -/
def setMuteFirst (us : List (ConnId × User)) (username : String)
    (expiry : Option Nat) : List (ConnId × User) :=
  match us with
  | [] => []
  | p :: rest =>
      if p.2.username = username then
        (p.1, { p.2 with muteExpires := expiry }) :: rest
      else p :: setMuteFirst rest username expiry

/-- Model of `handleAdminKick(ws, message)`: kick the target (send + terminate), confirm
to the caller, broadcast the user list (the target socket is already closed,
so it is excluded as a recipient, but its session is still in `users`). -/
def handleAdminKick (st : ServerState) (ws : ConnId) (targetUsername : String)
    (now : Nat) : StepOut :=
  match findSocketByUsername st.users targetUsername with
  | some targetSocket =>
      let openClients := st.clients.filter (fun c => c ≠ targetSocket)
      ⟨st,
        (targetSocket, .error "You have been kicked by an admin." true) ::
        (ws, .adminConfirm s!"User {targetUsername} has been kicked.") ::
        broadcastSends openClients (.userList (userListEntries st.users now)) none,
        [targetSocket]⟩
  | none => ⟨st, [(ws, .error s!"User {targetUsername} not found." false)], []⟩

/-- Model of `handleAdminMute(ws, message)`: set the target's `muteExpires` via
`calculateExpiry`, notify the target, confirm to the caller, broadcast the
user list. -/
def handleAdminMute (st : ServerState) (ws : ConnId) (targetUsername : String)
    (duration : Nat) (now : Nat) : StepOut :=
  match findUserByUsername st.users targetUsername with
  | some _ =>
      let st2 := { st with
        users := setMuteFirst st.users targetUsername (some (calculateExpiry now duration)) }
      let desc := if duration = 0 then "permanently" else s!"{duration} minutes"
      let reason := s!"You are muted for {desc}."
      let noticeSends :=
        match findSocketByUsername st2.users targetUsername with
        | some targetSocket => [(targetSocket, OutMsg.muted reason)]
        | none => []
      ⟨st2, noticeSends ++
        [(ws, .adminConfirm s!"User {targetUsername} has been muted.")] ++
        broadcastUserListSends st2 now, []⟩
  | none => ⟨st, [(ws, .error s!"User {targetUsername} not found." false)], []⟩

/-- The kick-after-ban tail of `handleAdminBan`. -/
def kickAfterBan (st : ServerState) (targetUsername : String)
    (confirmSends : List (ConnId × OutMsg)) : StepOut :=
  match findSocketByUsername st.users targetUsername with
  | some targetSocket =>
      ⟨st, confirmSends ++ [(targetSocket, .error "You have been banned from the server." true)],
        [targetSocket]⟩
  | none => ⟨st, confirmSends, []⟩

/-- Model of `handleAdminBan(ws, message)`: resolve the target; `username` scope adds
to the permanent set (duration ignored), `ip` scope records the target's
origin with a `calculateExpiry` expiry; any other scope is an error; then
force-disconnect the target if live. -/
def handleAdminBan (st : ServerState) (ws : ConnId) (targetUsername : String)
    (duration : Nat) (banType : String) (now : Nat) : StepOut :=
  match findUserByUsername st.users targetUsername with
  | none => ⟨st, [(ws, .error s!"User {targetUsername} not found." false)], []⟩
  | some targetUser =>
      let expiryDate := calculateExpiry now duration
      if banType = "username" then
        let st2 := { st with
          bannedUsernames := addBannedUsername st.bannedUsernames targetUsername }
        kickAfterBan st2 targetUsername
          [(ws, .adminConfirm s!"Username {targetUsername} has been permanently banned.")]
      else if banType = "ip" then
        let st2 := { st with
          bannedIPs := setBannedIP st.bannedIPs targetUser.ip expiryDate }
        let banLength := if duration = 0 then "permanently" else s!"for {duration} minutes"
        let tip := targetUser.ip
        kickAfterBan st2 targetUsername
          [(ws, .adminConfirm s!"IP {tip} for {targetUsername} has been banned {banLength}.")]
      else
        ⟨st, [(ws, .error "Invalid ban type." false)], []⟩

/-- Model of `handleAdminClear(ws, message)`: empty the channel in place, broadcast an
empty history to all clients, confirm to the caller; unknown channel is an
error. -/
def handleAdminClear (st : ServerState) (ws : ConnId) (channel : String) :
    StepOut :=
  match lookupChannel st.channels channel with
  | some _ =>
      let st2 := { st with channels := setChannel st.channels channel [] }
      ⟨st2, broadcastSends st2.clients (.history channel []) none ++
        [(ws, .adminConfirm s!"Channel #{channel} has been cleared.")], []⟩
  | none => ⟨st, [(ws, .error s!"Channel {channel} not found." false)], []⟩

/-- An inbound event envelope `{type, ...}`; absent fields are `none`
(JS `undefined` after destructuring). -/
structure InEvent where
  type : String
  username : Option String := none
  isAdmin : Option Bool := none
  channel : Option String := none
  text : Option String := none
  isTyping : Option Bool := none
  targetUsername : Option String := none
  duration : Option Nat := none
  banType : Option String := none
  deriving Repr

/-- JS `String.prototype.startsWith` (these envelopes are plain ASCII, so
prefix-of-characters coincides with prefix-of-code-units). -/
def strStartsWith (s pre : String) : Bool :=
  pre.toList.isPrefixOf s.toList

/-- The admin gate of `handleMessage`: `users.get(ws)` exists and is admin. -/
def isAdminSession (st : ServerState) (ws : ConnId) : Bool :=
  match lookupUser st.users ws with
  | some user => user.isAdmin
  | none => false

/-- Model of `handleMessage(ws, message, ip)`: reject `admin_`-prefixed types from
non-admin callers, then dispatch on `message.type`; unknown types fall
through to the logging default. -/
def handleMessage (st : ServerState) (ws : ConnId) (m : InEvent) (ip : String)
    (now : Nat) (newId : String) : StepOut :=
  if strStartsWith m.type "admin_" && !(isAdminSession st ws) then
    ⟨st, [(ws, .error "You are not authorized for this action." false)], []⟩
  else if m.type = "join" then
    handleJoin st ws (m.username.getD "") (m.isAdmin.getD false) ip newId now
  else if m.type = "message" then
    handleChatMessage st ws (m.channel.getD "") (m.text.getD "") now newId
  else if m.type = "getHistory" then
    handleGetHistory st ws (m.channel.getD "")
  else if m.type = "typing" then
    handleTyping st ws (m.channel.getD "") (m.isTyping.getD false) now
  else if m.type = "admin_kick" then
    handleAdminKick st ws (m.targetUsername.getD "") now
  else if m.type = "admin_mute" then
    handleAdminMute st ws (m.targetUsername.getD "") (m.duration.getD 0) now
  else if m.type = "admin_ban" then
    handleAdminBan st ws (m.targetUsername.getD "") (m.duration.getD 0)
      (m.banType.getD "") now
  else if m.type = "admin_clear" then
    handleAdminClear st ws (m.channel.getD "")
  else
    ⟨st, [], []⟩

/-- Result of the `wss.on('connection')` handler: state, sends, and whether
the connection was admitted (kept open). -/
structure ConnOut where
  state : ServerState
  sends : List (ConnId × OutMsg)
  admitted : Bool
  deriving Repr

/-- The `wss.on('connection')` handler: a banned origin with an unexpired ban
is sent a kick error and terminated; an expired entry is deleted and the
connection admitted; otherwise admitted with a `connected` confirmation. -/
def handleConnection (st : ServerState) (ws : ConnId) (ip : String)
    (now : Nat) : ConnOut :=
  match lookupBannedIP st.bannedIPs ip with
  | some expires =>
      if now < expires then
        ⟨st, [(ws, .error "You are banned from this server." true)], false⟩
      else
        ⟨{ st with bannedIPs := deleteBannedIP st.bannedIPs ip,
                   clients := st.clients ++ [ws] },
          [(ws, .connected "Connected to server")], true⟩
  | none =>
      ⟨{ st with clients := st.clients ++ [ws] },
        [(ws, .connected "Connected to server")], true⟩

/-- The `ws.on('close')` handler: the socket leaves `wss.clients`; if it had a
session, the session is deleted and the user list re-broadcast. -/
def handleClose (st : ServerState) (ws : ConnId) (now : Nat) :
    ServerState × List (ConnId × OutMsg) :=
  let stc := { st with clients := st.clients.filter (fun c => c ≠ ws) }
  match lookupUser stc.users ws with
  | some _ =>
      let st2 := { stc with users := deleteUser stc.users ws }
      (st2, broadcastUserListSends st2 now)
  | none => (stc, [])

/-- The per-user mute expiry step of the sweep: null out `muteExpires < now`. -/
def sweepMute (now : Nat) (u : User) : User :=
  match u.muteExpires with
  | some e => if e < now then { u with muteExpires := none } else u
  | none => u

/-- The 60-second `setInterval` sweep: delete origin bans with
`expires < now`; null out expired mutes and notify the affected sessions. -/
def sweep (st : ServerState) (now : Nat) :
    ServerState × List (ConnId × OutMsg) :=
  let bans2 := st.bannedIPs.filter (fun p => ¬ (p.2 < now))
  let muteSends := st.users.filterMap (fun p =>
    match p.2.muteExpires with
    | some e =>
        if e < now then
          (findSocketByUsername st.users p.2.username).map
            (fun s => (s, OutMsg.info "Your mute has expired."))
        else none
    | none => none)
  let users2 := st.users.map (fun p => (p.1, sweepMute now p.2))
  ({ st with bannedIPs := bans2, users := users2 }, muteSends)

/-- One external stimulus to the server. -/
inductive ServerInput where
  | connect (ws : ConnId) (ip : String)
  | event (ws : ConnId) (m : InEvent) (ip : String) (newId : String)
  | close (ws : ConnId)
  | sweepTick

/-- Run the `close` events that the `terminate()` calls of a handler trigger,
accumulating their sends after the handler's own. -/
def applyCloses (st : ServerState) (sends : List (ConnId × OutMsg))
    (terminated : List ConnId) (now : Nat) :
    ServerState × List (ConnId × OutMsg) :=
  match terminated with
  | [] => (st, sends)
  | ws :: rest =>
      let r := handleClose st ws now
      applyCloses r.1 (sends ++ r.2) rest now

/-- One full server step: dispatch the stimulus, then process the close
events of any terminated sockets. -/
def serverStep (st : ServerState) (inp : ServerInput) (now : Nat) :
    ServerState × List (ConnId × OutMsg) :=
  match inp with
  | .connect ws ip =>
      let r := handleConnection st ws ip now
      (r.state, r.sends)
  | .event ws m ip newId =>
      let r := handleMessage st ws m ip now newId
      applyCloses r.state r.sends r.terminated now
  | .close ws => handleClose st ws now
  | .sweepTick => sweep st now

/-- The initial store state: the three default channels, no users, no bans,
no clients. -/
def initialState : ServerState :=
  ⟨[("general", []), ("random", []), ("gaming", [])], [], [], [], []⟩


/-- The lazy mute check `user.muteExpires && user.muteExpires > new Date()`. -/
def mutedNow (user : User) (now : Nat) : Bool :=
  match user.muteExpires with
  | some e => decide (now < e)
  | none => false

/-- The usernames held by the live sessions, in map order. -/
def usernames (us : List (ConnId × User)) : List String :=
  us.map (fun p => p.2.username)

/-- Fold a sequence of external stimuli (each paired with its arrival time)
through `serverStep`. -/
def runServer (st : ServerState) (inputs : List (ServerInput × Nat)) :
    ServerState :=
  match inputs with
  | [] => st
  | i :: rest => runServer (serverStep st i.1 i.2).1 rest

theorem lookupChannel_setChannel_self (chs : List (String × List ChatMsg))
    (name : String) (h : List ChatMsg) :
    lookupChannel (setChannel chs name h) name = some h := by
  induction chs with
  | nil => simp [setChannel, lookupChannel]
  | cons p rest ih =>
      by_cases hp : p.1 = name <;> simp [setChannel, lookupChannel, hp, ih]

theorem lookupUser_deleteUser_self (us : List (ConnId × User)) (ws : ConnId) :
    lookupUser (deleteUser us ws) ws = none := by
  induction us with
  | nil => rfl
  | cons p rest ih =>
      by_cases hp : p.1 = ws
      · simp only [deleteUser, List.filter_cons, hp] at ih ⊢
        simpa using ih
      · simp only [deleteUser, List.filter_cons] at ih ⊢
        simpa [hp, lookupUser] using ih

theorem lookupUser_deleteUser_ne (us : List (ConnId × User)) (ws ws0 : ConnId)
    (hne : ws0 ≠ ws) :
    lookupUser (deleteUser us ws) ws0 = lookupUser us ws0 := by
  induction us with
  | nil => rfl
  | cons p rest ih =>
      by_cases hp : p.1 = ws
      · have hp0 : ¬ ws = ws0 := fun h => hne h.symm
        simp only [deleteUser, List.filter_cons, lookupUser] at ih ⊢
        simpa [hp, hp0] using ih
      · simp only [deleteUser, List.filter_cons, lookupUser] at ih ⊢
        rw [if_pos (by simp [hp])]
        by_cases hq : p.1 = ws0
        · simp [lookupUser, hq]
        · simp only [lookupUser]
          rw [if_neg hq, if_neg hq]
          simpa using ih

theorem findUserByUsername_isSome (us : List (ConnId × User)) (ws0 : ConnId)
    (u0 : User) (h : lookupUser us ws0 = some u0) :
    (findUserByUsername us u0.username).isSome = true := by
  induction us with
  | nil => simp [lookupUser] at h
  | cons p rest ih =>
      by_cases hp : p.1 = ws0
      · simp only [lookupUser, hp, if_pos, Option.some.injEq] at h
        simp [findUserByUsername, h]
      · simp only [lookupUser, hp, if_neg, ite_false] at h
        by_cases hn : p.2.username = u0.username <;>
          simp [findUserByUsername, hn, ih h]

theorem not_mem_usernames_of_find_none (us : List (ConnId × User)) (n : String)
    (h : findUserByUsername us n = none) : n ∉ usernames us := by
  induction us with
  | nil => simp [usernames]
  | cons p rest ih =>
      by_cases hp : p.2.username = n
      · simp [findUserByUsername, hp] at h
      · simp only [findUserByUsername, hp, ite_false, if_neg] at h
        simp only [usernames, List.map_cons, List.mem_cons]
        rintro (he | he)
        · exact hp he.symm
        · exact ih h he

theorem mem_usernames_setUser (us : List (ConnId × User)) (ws : ConnId)
    (u : User) (x : String) (hx : x ∈ usernames (setUser us ws u)) :
    x ∈ usernames us ∨ x = u.username := by
  induction us with
  | nil =>
      simp only [setUser, usernames, List.map_cons, List.map_nil,
        List.mem_singleton] at hx
      exact Or.inr hx
  | cons p rest ih =>
      by_cases hp : p.1 = ws
      · simp only [setUser, hp, if_pos, usernames, List.map_cons,
          List.mem_cons] at hx ⊢
        tauto
      · simp only [setUser, hp, ite_false, if_neg, usernames, List.map_cons,
          List.mem_cons] at hx ⊢
        rcases hx with h | h
        · exact Or.inl (Or.inl h)
        · rcases ih h with h' | h'
          · exact Or.inl (Or.inr h')
          · exact Or.inr h'

theorem nodup_usernames_setUser (us : List (ConnId × User)) (ws : ConnId)
    (u : User) (hnd : (usernames us).Nodup)
    (hfresh : u.username ∉ usernames us) :
    (usernames (setUser us ws u)).Nodup := by
  induction us with
  | nil => simp [setUser, usernames]
  | cons p rest ih =>
      simp only [usernames, List.map_cons, List.nodup_cons,
        List.mem_cons] at hnd hfresh
      push_neg at hfresh
      by_cases hp : p.1 = ws
      · simp only [setUser, hp, if_pos, usernames, List.map_cons,
          List.nodup_cons]
        exact ⟨hfresh.2, hnd.2⟩
      · simp only [setUser, hp, ite_false, if_neg, usernames, List.map_cons,
          List.nodup_cons]
        refine ⟨fun hm => ?_, ih hnd.2 hfresh.2⟩
        rcases mem_usernames_setUser rest ws u _ hm with h | h
        · exact hnd.1 h
        · exact hfresh.1 h.symm

theorem usernames_setMuteFirst (us : List (ConnId × User)) (n : String)
    (e : Option Nat) : usernames (setMuteFirst us n e) = usernames us := by
  induction us with
  | nil => rfl
  | cons p rest ih =>
      by_cases hp : p.2.username = n
      · simp [setMuteFirst, hp, usernames]
      · simp [setMuteFirst, hp, usernames]
        simpa [usernames] using ih

theorem nodup_usernames_filter (us : List (ConnId × User))
    (q : ConnId × User → Bool) (hnd : (usernames us).Nodup) :
    (usernames (us.filter q)).Nodup := by
  have hsub : List.Sublist (usernames (us.filter q)) (usernames us) :=
    (List.filter_sublist us).map _
  exact hnd.sublist hsub

theorem lookupUser_mapSnd (us : List (ConnId × User)) (ws : ConnId)
    (f : User → User) :
    lookupUser (us.map (fun p => (p.1, f p.2))) ws
      = (lookupUser us ws).map f := by
  induction us with
  | nil => rfl
  | cons p rest ih =>
      by_cases hp : p.1 = ws <;> simp [lookupUser, hp, ih]

theorem usernames_mapSnd (us : List (ConnId × User)) (f : User → User)
    (hf : ∀ u, (f u).username = u.username) :
    usernames (us.map (fun p => (p.1, f p.2))) = usernames us := by
  induction us with
  | nil => rfl
  | cons p rest ih =>
      simp only [List.map_cons, usernames, List.cons.injEq] at ih ⊢
      exact ⟨hf p.2, ih⟩

theorem lookupBannedIP_setBannedIP_self (bans : List (String × Nat))
    (ip : String) (e : Nat) :
    lookupBannedIP (setBannedIP bans ip e) ip = some e := by
  induction bans with
  | nil => simp [setBannedIP, lookupBannedIP]
  | cons p rest ih =>
      by_cases hp : p.1 = ip <;> simp [setBannedIP, lookupBannedIP, hp, ih]

theorem lookupBannedIP_sweep_keep (bans : List (String × Nat)) (ip : String)
    (e now : Nat) (h : lookupBannedIP bans ip = some e) (hk : ¬ e < now) :
    lookupBannedIP (bans.filter (fun p => ¬ (p.2 < now))) ip = some e := by
  induction bans with
  | nil => simp [lookupBannedIP] at h
  | cons p rest ih =>
      by_cases hp : p.1 = ip
      · simp only [lookupBannedIP, hp, if_pos, Option.some.injEq] at h
        subst h
        simp only [List.filter_cons]
        rw [if_pos (by simpa using hk)]
        simp [lookupBannedIP, hp]
      · simp only [lookupBannedIP, hp, ite_false, if_neg] at h
        simp only [List.filter_cons]
        by_cases hkeep : p.2 < now
        · rw [if_neg (by simpa using hkeep)]
          exact ih h
        · rw [if_pos (by simpa using hkeep)]
          simpa [lookupBannedIP, hp] using ih h

theorem sweepMute_username (now : Nat) (u : User) :
    (sweepMute now u).username = u.username := by
  unfold sweepMute
  cases u.muteExpires
  · rfl
  · dsimp only
    split <;> rfl

theorem mem_addBannedUsername (s : List String) (n x : String) (hx : x ∈ s) :
    x ∈ addBannedUsername s n := by
  unfold addBannedUsername
  split
  · exact hx
  · exact List.mem_append_left _ hx

theorem postChat_users_eq (st : ServerState) (user : User) (ch txt : String)
    (now : Nat) (newId : String) :
    (postChat st user ch txt now newId).state.users = st.users ∧
    (postChat st user ch txt now newId).state.bannedUsernames
      = st.bannedUsernames ∧
    (postChat st user ch txt now newId).state.clients = st.clients ∧
    (postChat st user ch txt now newId).state.bannedIPs = st.bannedIPs := by
  unfold postChat
  cases lookupChannel st.channels ch <;> simp

theorem handleChatMessage_users_eq (st : ServerState) (ws : ConnId)
    (ch txt : String) (now : Nat) (newId : String) :
    (handleChatMessage st ws ch txt now newId).state.users = st.users ∧
    (handleChatMessage st ws ch txt now newId).state.bannedUsernames
      = st.bannedUsernames := by
  unfold handleChatMessage
  cases lookupUser st.users ws with
  | none => exact ⟨rfl, rfl⟩
  | some user =>
      dsimp only
      cases user.muteExpires with
      | none => exact ⟨(postChat_users_eq ..).1, (postChat_users_eq ..).2.1⟩
      | some e =>
          dsimp only
          split
          · exact ⟨rfl, rfl⟩
          · exact ⟨(postChat_users_eq ..).1, (postChat_users_eq ..).2.1⟩

theorem handleGetHistory_state (st : ServerState) (ws : ConnId)
    (ch : String) : (handleGetHistory st ws ch).state = st := by
  unfold handleGetHistory
  cases lookupChannel st.channels ch <;> rfl

theorem handleTyping_state (st : ServerState) (ws : ConnId) (ch : String)
    (isTyping : Bool) (now : Nat) :
    (handleTyping st ws ch isTyping now).state = st := by
  unfold handleTyping
  cases lookupUser st.users ws with
  | none => rfl
  | some user =>
      dsimp only
      cases user.muteExpires with
      | none => rfl
      | some e =>
          dsimp only
          split <;> rfl

theorem handleAdminKick_state (st : ServerState) (ws : ConnId) (t : String)
    (now : Nat) : (handleAdminKick st ws t now).state = st := by
  unfold handleAdminKick
  cases findSocketByUsername st.users t <;> rfl

theorem handleAdminMute_state (st : ServerState) (ws : ConnId) (t : String)
    (dur now : Nat) :
    usernames (handleAdminMute st ws t dur now).state.users
      = usernames st.users ∧
    (handleAdminMute st ws t dur now).state.bannedUsernames
      = st.bannedUsernames := by
  unfold handleAdminMute
  cases findUserByUsername st.users t with
  | none => exact ⟨rfl, rfl⟩
  | some u =>
      dsimp only
      cases findSocketByUsername (setMuteFirst st.users t
        (some (calculateExpiry now dur))) t <;>
        exact ⟨usernames_setMuteFirst .., rfl⟩

theorem handleAdminBan_state (st : ServerState) (ws : ConnId) (t : String)
    (dur : Nat) (bt : String) (now : Nat) :
    (handleAdminBan st ws t dur bt now).state.users = st.users ∧
    ((handleAdminBan st ws t dur bt now).state.bannedUsernames
        = st.bannedUsernames ∨
     (handleAdminBan st ws t dur bt now).state.bannedUsernames
        = addBannedUsername st.bannedUsernames t) := by
  unfold handleAdminBan kickAfterBan
  cases findUserByUsername st.users t with
  | none => exact ⟨rfl, Or.inl rfl⟩
  | some tu =>
      dsimp only
      split_ifs <;> (try split) <;> simp

theorem handleAdminClear_state (st : ServerState) (ws : ConnId)
    (ch : String) :
    (handleAdminClear st ws ch).state.users = st.users ∧
    (handleAdminClear st ws ch).state.bannedUsernames
      = st.bannedUsernames := by
  unfold handleAdminClear
  cases lookupChannel st.channels ch <;> exact ⟨rfl, rfl⟩

theorem handleJoin_nodup (st : ServerState) (ws : ConnId) (username : String)
    (isAdmin : Bool) (ip newId : String) (now : Nat)
    (hnd : (usernames st.users).Nodup) :
    (usernames (handleJoin st ws username isAdmin ip newId now).state.users).Nodup := by
  unfold handleJoin
  split_ifs with h1 h2
  · simpa
  · simpa
  · apply nodup_usernames_setUser _ _ _ hnd
    apply not_mem_usernames_of_find_none
    cases hf : findUserByUsername st.users username
    · rfl
    · rw [hf] at h2
      simp at h2

theorem handleJoin_banned (st : ServerState) (ws : ConnId)
    (username : String) (isAdmin : Bool) (ip newId : String) (now : Nat) :
    (handleJoin st ws username isAdmin ip newId now).state.bannedUsernames
      = st.bannedUsernames := by
  unfold handleJoin
  split_ifs <;> rfl

theorem handleClose_nodup (st : ServerState) (ws : ConnId) (now : Nat)
    (hnd : (usernames st.users).Nodup) :
    (usernames (handleClose st ws now).1.users).Nodup := by
  unfold handleClose
  dsimp only
  cases lookupUser st.users ws
  · simpa using hnd
  · exact nodup_usernames_filter st.users _ hnd

theorem handleClose_banned (st : ServerState) (ws : ConnId) (now : Nat) :
    (handleClose st ws now).1.bannedUsernames = st.bannedUsernames := by
  unfold handleClose
  dsimp only
  cases lookupUser st.users ws <;> rfl

theorem handleConnection_users_banned (st : ServerState) (ws : ConnId)
    (ip : String) (now : Nat) :
    (handleConnection st ws ip now).state.users = st.users ∧
    (handleConnection st ws ip now).state.bannedUsernames
      = st.bannedUsernames := by
  unfold handleConnection
  cases lookupBannedIP st.bannedIPs ip with
  | none => exact ⟨rfl, rfl⟩
  | some e =>
      dsimp only
      split <;> exact ⟨rfl, rfl⟩

theorem usernames_sweep (st : ServerState) (now : Nat) :
    usernames (sweep st now).1.users = usernames st.users := by
  unfold sweep
  exact usernames_mapSnd st.users (sweepMute now) (sweepMute_username now)

theorem sweep_banned (st : ServerState) (now : Nat) :
    (sweep st now).1.bannedUsernames = st.bannedUsernames := rfl

theorem handleMessage_nodup (st : ServerState) (ws : ConnId) (m : InEvent)
    (ip : String) (now : Nat) (newId : String)
    (hnd : (usernames st.users).Nodup) :
    (usernames (handleMessage st ws m ip now newId).state.users).Nodup := by
  unfold handleMessage
  split_ifs
  · simpa
  · exact handleJoin_nodup st ws _ _ ip newId now hnd
  · rw [(handleChatMessage_users_eq st ws _ _ now newId).1]
    exact hnd
  · rw [handleGetHistory_state]
    exact hnd
  · rw [handleTyping_state]
    exact hnd
  · rw [handleAdminKick_state]
    exact hnd
  · rw [(handleAdminMute_state st ws _ _ now).1]
    exact hnd
  · rw [(handleAdminBan_state st ws _ _ _ now).1]
    exact hnd
  · rw [(handleAdminClear_state st ws _).1]
    exact hnd
  · simpa

theorem handleMessage_banned_mono (st : ServerState) (ws : ConnId)
    (m : InEvent) (ip : String) (now : Nat) (newId : String) (x : String)
    (hx : x ∈ st.bannedUsernames) :
    x ∈ (handleMessage st ws m ip now newId).state.bannedUsernames := by
  unfold handleMessage
  split_ifs
  · exact hx
  · rw [handleJoin_banned]
    exact hx
  · rw [(handleChatMessage_users_eq st ws _ _ now newId).2]
    exact hx
  · rw [handleGetHistory_state]
    exact hx
  · rw [handleTyping_state]
    exact hx
  · rw [handleAdminKick_state]
    exact hx
  · rw [(handleAdminMute_state st ws _ _ now).2]
    exact hx
  · rcases (handleAdminBan_state st ws _ _ _ now).2 with h | h <;> rw [h]
    · exact hx
    · exact mem_addBannedUsername _ _ _ hx
  · rw [(handleAdminClear_state st ws _).2]
    exact hx
  · exact hx

theorem applyCloses_nodup (terminated : List ConnId) (st : ServerState)
    (sends : List (ConnId × OutMsg)) (now : Nat)
    (hnd : (usernames st.users).Nodup) :
    (usernames (applyCloses st sends terminated now).1.users).Nodup := by
  induction terminated generalizing st sends with
  | nil => simpa [applyCloses]
  | cons w rest ih => exact ih _ _ (handleClose_nodup st w now hnd)

theorem applyCloses_banned (terminated : List ConnId) (st : ServerState)
    (sends : List (ConnId × OutMsg)) (now : Nat) :
    (applyCloses st sends terminated now).1.bannedUsernames
      = st.bannedUsernames := by
  induction terminated generalizing st sends with
  | nil => rfl
  | cons w rest ih =>
      rw [show applyCloses st sends (w :: rest) now
        = applyCloses (handleClose st w now).1
            (sends ++ (handleClose st w now).2) rest now from rfl]
      rw [ih, handleClose_banned]

theorem applyCloses_sends (terminated : List ConnId) (st : ServerState)
    (sends : List (ConnId × OutMsg)) (now : Nat) :
    ∃ rest, (applyCloses st sends terminated now).2 = sends ++ rest := by
  induction terminated generalizing st sends with
  | nil => exact ⟨[], by simp [applyCloses]⟩
  | cons w rest ih =>
      obtain ⟨r2, hr⟩ := ih (handleClose st w now).1
        (sends ++ (handleClose st w now).2)
      exact ⟨(handleClose st w now).2 ++ r2, by
        rw [show applyCloses st sends (w :: rest) now
          = applyCloses (handleClose st w now).1
              (sends ++ (handleClose st w now).2) rest now from rfl]
        rw [hr, List.append_assoc]⟩

theorem serverStep_nodup (st : ServerState) (inp : ServerInput) (now : Nat)
    (hnd : (usernames st.users).Nodup) :
    (usernames (serverStep st inp now).1.users).Nodup := by
  cases inp with
  | connect ws ip =>
      show (usernames (handleConnection st ws ip now).state.users).Nodup
      rw [(handleConnection_users_banned st ws ip now).1]
      exact hnd
  | event ws m ip newId =>
      exact applyCloses_nodup _ _ _ _ (handleMessage_nodup st ws m ip now newId hnd)
  | close ws => exact handleClose_nodup st ws now hnd
  | sweepTick =>
      show (usernames (sweep st now).1.users).Nodup
      rw [usernames_sweep]
      exact hnd

theorem serverStep_banned_mono (st : ServerState) (inp : ServerInput)
    (now : Nat) (x : String) (hx : x ∈ st.bannedUsernames) :
    x ∈ (serverStep st inp now).1.bannedUsernames := by
  cases inp with
  | connect ws ip =>
      show x ∈ (handleConnection st ws ip now).state.bannedUsernames
      rw [(handleConnection_users_banned st ws ip now).2]
      exact hx
  | event ws m ip newId =>
      show x ∈ (applyCloses _ _ _ _).1.bannedUsernames
      rw [applyCloses_banned]
      exact handleMessage_banned_mono st ws m ip now newId x hx
  | close ws =>
      show x ∈ (handleClose st ws now).1.bannedUsernames
      rw [handleClose_banned]
      exact hx
  | sweepTick =>
      show x ∈ (sweep st now).1.bannedUsernames
      rw [sweep_banned]
      exact hx

theorem runServer_nodup (st : ServerState) (inputs : List (ServerInput × Nat))
    (hnd : (usernames st.users).Nodup) :
    (usernames (runServer st inputs).users).Nodup := by
  induction inputs generalizing st with
  | nil => simpa [runServer]
  | cons i rest ih => exact ih _ (serverStep_nodup st i.1 i.2 hnd)

theorem runServer_banned_mono (st : ServerState)
    (inputs : List (ServerInput × Nat)) (x : String)
    (hx : x ∈ st.bannedUsernames) :
    x ∈ (runServer st inputs).bannedUsernames := by
  induction inputs generalizing st with
  | nil => simpa [runServer]
  | cons i rest ih => exact ih _ (serverStep_banned_mono st i.1 i.2 x hx)

theorem handleChatMessage_not_muted (st : ServerState) (ws : ConnId)
    (ch txt : String) (now : Nat) (newId : String) (user : User)
    (hu : lookupUser st.users ws = some user)
    (hm : mutedNow user now = false) :
    handleChatMessage st ws ch txt now newId
      = postChat st user ch txt now newId := by
  unfold handleChatMessage
  rw [hu]
  dsimp only
  cases hme : user.muteExpires with
  | none => rfl
  | some e =>
      simp only [mutedNow, hme, decide_eq_false_iff_not] at hm
      dsimp only
      rw [if_neg hm]

theorem appendBounded_length_le (hist : List ChatMsg) (m : ChatMsg)
    (h : hist.length ≤ 100) : (appendBounded hist m).length ≤ 100 := by
  unfold appendBounded
  dsimp only
  split
  · simp only [List.length_tail, List.length_append, List.length_singleton]
    omega
  · next hc =>
      simp only [List.length_append, List.length_singleton]
      simp only [not_lt, List.length_append, List.length_singleton] at hc
      omega

theorem appendBounded_full (hist : List ChatMsg) (m : ChatMsg)
    (h : hist.length = 100) : appendBounded hist m = hist.tail ++ [m] := by
  unfold appendBounded
  dsimp only
  rw [if_pos (by simp [h])]
  cases hist with
  | nil => simp at h
  | cons a t => simp

theorem appendBounded_not_full (hist : List ChatMsg) (m : ChatMsg)
    (h : hist.length < 100) : appendBounded hist m = hist ++ [m] := by
  unfold appendBounded
  dsimp only
  rw [if_neg (by simp; omega)]

theorem foldl_appendBounded (es : List ChatMsg) (init : List ChatMsg)
    (h : init.length ≤ 100) :
    es.foldl appendBounded init
      = (init ++ es).drop ((init ++ es).length - 100) := by
  induction es generalizing init with
  | nil =>
      simp [Nat.sub_eq_zero_of_le h]
  | cons e rest ih =>
      rw [List.foldl_cons, ih _ (appendBounded_length_le init e h)]
      by_cases hfull : init.length = 100
      · rw [appendBounded_full init e hfull]
        cases init with
        | nil => simp at hfull
        | cons a t =>
            have ht : t.length = 99 := by simpa using hfull
            simp only [List.tail_cons]
            have hlenL : ((t ++ [e]) ++ rest).length - 100 = rest.length := by
              simp only [List.length_append, List.length_singleton, ht]
              omega
            have hlenR :
                ((a :: t) ++ (e :: rest)).length - 100 = rest.length + 1 := by
              simp only [List.cons_append, List.length_cons,
                List.length_append, ht]
              omega
            rw [hlenL, hlenR, List.cons_append, List.drop_succ_cons]
            congr 1
            simp [List.append_assoc]
      · have hlt : init.length < 100 := by omega
        rw [appendBounded_not_full init e hlt]
        simp [List.append_assoc]

/-- C3: the channel-store append keeps every history at length ≤ 100, evicts
exactly the single oldest entry when a full history overflows, leaves an
initially-empty channel holding exactly the most recent 100 posts in arrival
order after any sequence of posts, and `handleChatMessage` performs exactly
this bounded append on the posted channel. -/
theorem history_bound_fifo :
    (∀ (hist : List ChatMsg) (m : ChatMsg),
        hist.length ≤ 100 → (appendBounded hist m).length ≤ 100) ∧
    (∀ (hist : List ChatMsg) (m : ChatMsg),
        hist.length = 100 → appendBounded hist m = hist.tail ++ [m]) ∧
    (∀ es : List ChatMsg,
        es.foldl appendBounded [] = es.drop (es.length - 100)) ∧
    (∀ (st : ServerState) (ws : ConnId) (ch txt : String) (now : Nat)
        (newId : String) (user : User) (hist : List ChatMsg),
        lookupUser st.users ws = some user → mutedNow user now = false →
        lookupChannel st.channels ch = some hist →
        lookupChannel
            (handleChatMessage st ws ch txt now newId).state.channels ch
          = some (appendBounded hist
              ⟨newId, user.username, txt, ch, now, user.isAdmin⟩)) := by
  refine ⟨appendBounded_length_le, appendBounded_full, ?_, ?_⟩
  · intro es
    simpa using foldl_appendBounded es [] (by simp)
  · intro st ws ch txt now newId user hist hu hm hch
    rw [handleChatMessage_not_muted st ws ch txt now newId user hu hm]
    unfold postChat
    rw [hch]
    dsimp only
    exact lookupChannel_setChannel_self st.channels ch _

/-- A two-client state with one joined, unmuted session, used as a concrete
instance for claims about `message` handling. -/
def wsStateA : ServerState :=
  ⟨[("general", [])], [(1, ⟨"alice", "id1", "ip1", false, none⟩)], [], [],
    [1, 2]⟩

/-- Witness for the C3 theorem at concrete inputs. -/
theorem history_bound_fifo_witness :
    (appendBounded [] ⟨"i", "a", "t", "c", 0, false⟩).length ≤ 100 ∧
    lookupChannel
        (handleChatMessage wsStateA 1 "general" "hi" 0 "n").state.channels
        "general"
      = some (appendBounded [] ⟨"n", "alice", "hi", "general", 0, false⟩) :=
  ⟨history_bound_fifo.1 [] _ (by decide),
   history_bound_fifo.2.2.2 wsStateA 1 "general" "hi" 0 "n"
     ⟨"alice", "id1", "ip1", false, none⟩ [] (by decide) (by decide)
     (by decide)⟩

/-- C1 counterexample: in a two-client state, a `message` from the joined,
unmuted session naming the nonexistent channel "nochannel" leaves the channel
store untouched but still produces sends — the claim's "no broadcast is
issued to any session" is false on the code. -/
theorem message_unknown_channel_still_broadcasts :
    (handleChatMessage wsStateA 1 "nochannel" "hi" 5 "mid").state.channels
      = [("general", [])] ∧
    (handleChatMessage wsStateA 1 "nochannel" "hi" 5 "mid").sends
      = [(1, .chat ⟨"mid", "alice", "hi", "nochannel", 5, false⟩),
         (2, .chat ⟨"mid", "alice", "hi", "nochannel", 5, false⟩)] :=
  ⟨by decide, by decide⟩

/-- C1 (amended): a `message` from a joined, unmuted session naming a channel
absent from the channel store mutates no state at all — but the chat event is
still broadcast to every open client, including the sender; only the store
append is skipped. -/
theorem message_unknown_channel_drop (st : ServerState) (ws : ConnId)
    (ch txt : String) (now : Nat) (newId : String) (user : User)
    (hu : lookupUser st.users ws = some user)
    (hm : mutedNow user now = false)
    (hch : lookupChannel st.channels ch = none) :
    (handleChatMessage st ws ch txt now newId).state = st ∧
    (handleChatMessage st ws ch txt now newId).sends
      = broadcastSends st.clients
          (.chat ⟨newId, user.username, txt, ch, now, user.isAdmin⟩) none := by
  rw [handleChatMessage_not_muted st ws ch txt now newId user hu hm]
  unfold postChat
  rw [hch]
  exact ⟨rfl, rfl⟩

/-- Witness for the C1 amended theorem at concrete inputs. -/
theorem message_unknown_channel_drop_witness :
    (handleChatMessage wsStateA 1 "nochannel" "hi" 5 "mid").state = wsStateA ∧
    (handleChatMessage wsStateA 1 "nochannel" "hi" 5 "mid").sends
      = broadcastSends wsStateA.clients
          (.chat ⟨"mid", "alice", "hi", "nochannel", 5, false⟩) none :=
  message_unknown_channel_drop wsStateA 1 "nochannel" "hi" 5 "mid"
    ⟨"alice", "id1", "ip1", false, none⟩ (by decide) (by decide) (by decide)

/-- C6: with a joined session, a `message` at time `now` is rejected with a
unicast error naming the rounded remaining minutes exactly when the session's
mute expiry is strictly in the future at `now`; once the expiry has passed —
whether the sweep has nulled it out or not — the message is accepted and
broadcast. -/
theorem mute_lazy_check (st : ServerState) (ws : ConnId) (ch txt : String)
    (now : Nat) (newId : String) (user : User)
    (hu : lookupUser st.users ws = some user) :
    (∀ e, user.muteExpires = some e → now < e →
        handleChatMessage st ws ch txt now newId
          = ⟨st, [(ws, .error
              s!"You are muted. Expires in {jsRoundMinutes (e - now)} minutes."
              false)], []⟩) ∧
    (∀ e, user.muteExpires = some e → e ≤ now →
        (handleChatMessage st ws ch txt now newId).sends
          = broadcastSends st.clients
              (.chat ⟨newId, user.username, txt, ch, now, user.isAdmin⟩)
              none) ∧
    (user.muteExpires = none →
        (handleChatMessage st ws ch txt now newId).sends
          = broadcastSends st.clients
              (.chat ⟨newId, user.username, txt, ch, now, user.isAdmin⟩)
              none) := by
  have haccept : mutedNow user now = false →
      (handleChatMessage st ws ch txt now newId).sends
        = broadcastSends st.clients
            (.chat ⟨newId, user.username, txt, ch, now, user.isAdmin⟩)
            none := by
    intro hm
    rw [handleChatMessage_not_muted st ws ch txt now newId user hu hm]
    unfold postChat
    cases hch : lookupChannel st.channels ch <;> rfl
  refine ⟨?_, ?_, ?_⟩
  · intro e hme hlt
    unfold handleChatMessage
    rw [hu]
    dsimp only
    rw [hme]
    dsimp only
    rw [if_pos hlt]
  · intro e hme hle
    exact haccept (by simp [mutedNow, hme]; omega)
  · intro hme
    exact haccept (by simp [mutedNow, hme])

/-- A state in which "bob" (socket 2) is muted with the 100-year permanent
encoding issued at time 1000, alongside the unmuted "alice" (socket 1). -/
def stMutedB : ServerState :=
  ⟨[("general", [])],
    [(1, ⟨"alice", "id1", "ip1", false, none⟩),
     (2, ⟨"bob", "id2", "ip2", false, some 3153600001000⟩)],
    [], [], [1, 2]⟩

/-- Witness for the C6 theorem at concrete inputs: bob muted until
3153600001000 is rejected at time 61000 with the rounded remaining minutes;
alice with no mute is accepted and broadcast. -/
theorem mute_lazy_check_witness :
    handleChatMessage stMutedB 2 "general" "hi" 61000 "m"
      = ⟨stMutedB,
          [(2, .error "You are muted. Expires in 52559999 minutes." false)],
          []⟩ ∧
    (handleChatMessage wsStateA 1 "general" "hello" 7 "k").sends
      = broadcastSends wsStateA.clients
          (.chat ⟨"k", "alice", "hello", "general", 7, false⟩) none := by
  constructor
  · have h := (mute_lazy_check stMutedB 2 "general" "hi" 61000 "m"
      ⟨"bob", "id2", "ip2", false, some 3153600001000⟩ (by decide)).1
      3153600001000 (by decide) (by decide)
    rw [h]
    decide
  · exact (mute_lazy_check wsStateA 1 "general" "hello" 7 "k"
      ⟨"alice", "id1", "ip1", false, none⟩ (by decide)).2.2 (by decide)

/-- How many sends in an effect list deliver payload `msg` to connection
`c`. -/
def sendCountTo : List (ConnId × OutMsg) → ConnId → OutMsg → Nat
  | [], _, _ => 0
  | p :: rest, c, msg =>
      (if p.1 = c ∧ p.2 = msg then 1 else 0) + sendCountTo rest c msg

theorem broadcastSends_none (clients : List ConnId) (msg : OutMsg) :
    broadcastSends clients msg none = clients.map (fun c => (c, msg)) := by
  unfold broadcastSends
  rw [List.filter_eq_self.mpr (fun a _ => by simp)]

theorem sendCountTo_map_count (clients : List ConnId) (msg : OutMsg)
    (c : ConnId) :
    sendCountTo (clients.map (fun x => (x, msg))) c msg
      = clients.count c := by
  induction clients with
  | nil => rfl
  | cons a rest ih =>
      simp only [List.map_cons, sendCountTo, List.count_cons, ih]
      by_cases ha : a = c
      · simp [ha]
        omega
      · simp [ha, Ne.symm ha]

/-- C9: a `message` accepted from a joined, unmuted session for an existing
channel is delivered by the broadcast exactly once to every open client
socket (in particular to every other live session and to the sender itself),
given distinct sockets and no transport failure (every socket open). -/
theorem broadcast_completeness (st : ServerState) (ws : ConnId)
    (ch txt : String) (now : Nat) (newId : String) (user : User)
    (hist : List ChatMsg)
    (hu : lookupUser st.users ws = some user)
    (hm : mutedNow user now = false)
    (hch : lookupChannel st.channels ch = some hist)
    (hnd : st.clients.Nodup) :
    (∀ c ∈ st.clients,
        sendCountTo (handleChatMessage st ws ch txt now newId).sends c
          (.chat ⟨newId, user.username, txt, ch, now, user.isAdmin⟩) = 1) ∧
    (∀ p ∈ st.users, p.1 ∈ st.clients →
        sendCountTo (handleChatMessage st ws ch txt now newId).sends p.1
          (.chat ⟨newId, user.username, txt, ch, now, user.isAdmin⟩) = 1) := by
  have hsends : (handleChatMessage st ws ch txt now newId).sends
      = broadcastSends st.clients
          (.chat ⟨newId, user.username, txt, ch, now, user.isAdmin⟩) none := by
    rw [handleChatMessage_not_muted st ws ch txt now newId user hu hm]
    unfold postChat
    rw [hch]
  have key : ∀ c ∈ st.clients,
      sendCountTo (handleChatMessage st ws ch txt now newId).sends c
        (.chat ⟨newId, user.username, txt, ch, now, user.isAdmin⟩) = 1 := by
    intro c hc
    rw [hsends, broadcastSends_none, sendCountTo_map_count]
    exact List.count_eq_one_of_mem hnd hc
  exact ⟨key, fun p _ hp => key p.1 hp⟩

/-- Witness for the C9 theorem at concrete inputs. -/
theorem broadcast_completeness_witness :
    sendCountTo (handleChatMessage wsStateA 1 "general" "hi" 0 "n").sends 2
      (.chat ⟨"n", "alice", "hi", "general", 0, false⟩) = 1 ∧
    sendCountTo (handleChatMessage wsStateA 1 "general" "hi" 0 "n").sends 1
      (.chat ⟨"n", "alice", "hi", "general", 0, false⟩) = 1 :=
  ⟨(broadcast_completeness wsStateA 1 "general" "hi" 0 "n"
      ⟨"alice", "id1", "ip1", false, none⟩ [] (by decide) (by decide)
      (by decide) (by decide)).1 2 (by decide),
   (broadcast_completeness wsStateA 1 "general" "hi" 0 "n"
      ⟨"alice", "id1", "ip1", false, none⟩ [] (by decide) (by decide)
      (by decide) (by decide)).1 1 (by decide)⟩

/-- A state with one channel, no sessions, and one open (connected but not
joined) socket 3. -/
def stNoSession : ServerState := ⟨[("general", [])], [], [], [], [3]⟩

/-- C4 counterexample: socket 3 has connected but never joined (no session),
yet its `getHistory` event is answered with a `history` unicast — the claim's
"no reply or error to the caller" is false on the code (and `admin_*` events
likewise receive an Unauthorized error reply). -/
theorem unjoined_gets_replies :
    lookupUser stNoSession.users 3 = none ∧
    (handleMessage stNoSession 3 { type := "getHistory", channel := some "general" }
        "ip" 0 "n").sends
      = [(3, .history "general" [])] ∧
    (handleMessage stNoSession 3 { type := "admin_kick", targetUsername := some "x" }
        "ip" 0 "n").sends
      = [(3, .error "You are not authorized for this action." false)] :=
  ⟨by decide, by decide, by decide⟩

/-- C4 (amended): for a connection with no session, `message` and `typing`
events are ignored with no state change and no reply; a `getHistory` event is
answered with a history unicast (empty for unknown channels) without any
session check; any `admin_`-prefixed event receives an Unauthorized error
unicast; any other non-`join` event type is ignored silently. -/
theorem unjoined_events (st : ServerState) (ws : ConnId) (ip : String)
    (now : Nat) (newId : String) (hu : lookupUser st.users ws = none) :
    (∀ m : InEvent, m.type = "message" →
        handleMessage st ws m ip now newId = ⟨st, [], []⟩) ∧
    (∀ m : InEvent, m.type = "typing" →
        handleMessage st ws m ip now newId = ⟨st, [], []⟩) ∧
    (∀ m : InEvent, m.type = "getHistory" →
        (handleMessage st ws m ip now newId).state = st ∧
        (handleMessage st ws m ip now newId).sends
          = [(ws, .history (m.channel.getD "")
              ((lookupChannel st.channels (m.channel.getD "")).getD []))]) ∧
    (∀ m : InEvent, strStartsWith m.type "admin_" = true →
        handleMessage st ws m ip now newId
          = ⟨st, [(ws, .error "You are not authorized for this action." false)],
              []⟩) ∧
    (∀ m : InEvent, strStartsWith m.type "admin_" = false →
        m.type ∉ (["join", "message", "getHistory", "typing"] : List String) →
        handleMessage st ws m ip now newId = ⟨st, [], []⟩) := by
  have hadm : isAdminSession st ws = false := by
    simp [isAdminSession, hu]
  refine ⟨?_, ?_, ?_, ?_, ?_⟩
  · intro m hty
    have hsw : strStartsWith "message" "admin_" = false := by decide
    simp [handleMessage, hty, hsw, handleChatMessage, hu]
  · intro m hty
    have hsw : strStartsWith "typing" "admin_" = false := by decide
    simp [handleMessage, hty, hsw, handleTyping, hu]
  · intro m hty
    have hsw : strStartsWith "getHistory" "admin_" = false := by decide
    cases hch : lookupChannel st.channels (m.channel.getD "") <;>
      simp [handleMessage, hty, hsw, handleGetHistory, hch]
  · intro m hsw
    simp [handleMessage, hsw, hadm]
  · intro m hsw hnot
    simp only [List.mem_cons, List.not_mem_nil, or_false, not_or] at hnot
    obtain ⟨h1, h2, h3, h4⟩ := hnot
    have h5 : m.type ≠ "admin_kick" := by
      intro h
      rw [h] at hsw
      exact absurd hsw (by decide)
    have h6 : m.type ≠ "admin_mute" := by
      intro h
      rw [h] at hsw
      exact absurd hsw (by decide)
    have h7 : m.type ≠ "admin_ban" := by
      intro h
      rw [h] at hsw
      exact absurd hsw (by decide)
    have h8 : m.type ≠ "admin_clear" := by
      intro h
      rw [h] at hsw
      exact absurd hsw (by decide)
    simp [handleMessage, hsw, h1, h2, h3, h4, h5, h6, h7, h8]

/-- Witness for the C4 amended theorem at concrete inputs. -/
theorem unjoined_events_witness :
    handleMessage stNoSession 3
        { type := "message", channel := some "general", text := some "hi" }
        "ip" 0 "n"
      = ⟨stNoSession, [], []⟩ ∧
    (handleMessage stNoSession 3
        { type := "getHistory", channel := some "nowhere" } "ip" 0 "n").sends
      = [(3, .history "nowhere" [])] :=
  ⟨(unjoined_events stNoSession 3 "ip" 0 "n" (by decide)).1 _ rfl,
   ((unjoined_events stNoSession 3 "ip" 0 "n" (by decide)).2.2.1 _ rfl).2⟩

/-- C8 counterexample: the unrecognized type "admin_frobnicate" from a
non-admin joined session is not silently ignored — the admin gate fires first
and replies with an Unauthorized error, contradicting "no reply is sent to
the caller, for every connection state and authorization level". -/
theorem unknown_admin_type_replies :
    (handleMessage wsStateA 1 { type := "admin_frobnicate" } "ip" 0 "n").sends
      = [(1, .error "You are not authorized for this action." false)] ∧
    (handleMessage wsStateA 1 { type := "admin_frobnicate" } "ip" 0 "n").state
      = wsStateA :=
  ⟨by decide, by decide⟩

/-- C8 (amended): an inbound event whose type is unrecognized is ignored
(no state change, no reply) when the type does not begin with `admin_`, and
also when it does begin with `admin_` but the caller is an elevated session;
when it begins with `admin_` and the caller is not elevated (or has no
session), the caller receives an Unauthorized error unicast instead. -/
theorem unknown_type_handling (st : ServerState) (ws : ConnId) (m : InEvent)
    (ip : String) (now : Nat) (newId : String)
    (hnot : m.type ∉ (["join", "message", "getHistory", "typing", "admin_kick",
      "admin_mute", "admin_ban", "admin_clear"] : List String)) :
    (strStartsWith m.type "admin_" = false →
        handleMessage st ws m ip now newId = ⟨st, [], []⟩) ∧
    (strStartsWith m.type "admin_" = true → isAdminSession st ws = true →
        handleMessage st ws m ip now newId = ⟨st, [], []⟩) ∧
    (strStartsWith m.type "admin_" = true → isAdminSession st ws = false →
        handleMessage st ws m ip now newId
          = ⟨st, [(ws, .error "You are not authorized for this action." false)],
              []⟩) := by
  simp only [List.mem_cons, List.not_mem_nil, or_false, not_or] at hnot
  obtain ⟨h1, h2, h3, h4, h5, h6, h7, h8⟩ := hnot
  refine ⟨?_, ?_, ?_⟩
  · intro hsw
    simp [handleMessage, hsw, h1, h2, h3, h4, h5, h6, h7, h8]
  · intro hsw hadm
    simp [handleMessage, hsw, hadm, h1, h2, h3, h4, h5, h6, h7, h8]
  · intro hsw hadm
    simp [handleMessage, hsw, hadm]

/-- A state with one elevated session (socket 1). -/
def stAdminOnly : ServerState :=
  ⟨[("general", [])], [(1, ⟨"root", "id0", "ip0", true, none⟩)], [], [], [1]⟩

/-- Witness for the C8 amended theorem at concrete inputs. -/
theorem unknown_type_handling_witness :
    handleMessage wsStateA 1 { type := "frobnicate" } "ip" 0 "n"
      = ⟨wsStateA, [], []⟩ ∧
    handleMessage stAdminOnly 1 { type := "admin_frobnicate" } "ip" 0 "n"
      = ⟨stAdminOnly, [], []⟩ :=
  ⟨(unknown_type_handling wsStateA 1 { type := "frobnicate" } "ip" 0 "n"
      (by decide)).1 (by decide),
   (unknown_type_handling stAdminOnly 1 { type := "admin_frobnicate" } "ip" 0
      "n" (by decide)).2.1 (by decide) (by decide)⟩

theorem findUserByUsername_setMuteFirst (us : List (ConnId × User))
    (n : String) (e : Option Nat) :
    findUserByUsername (setMuteFirst us n e) n
      = (findUserByUsername us n).map (fun u => { u with muteExpires := e }) := by
  induction us with
  | nil => rfl
  | cons p rest ih =>
      by_cases hp : p.2.username = n
      · simp [setMuteFirst, findUserByUsername, hp]
      · simp [setMuteFirst, findUserByUsername, hp, ih]

theorem handleChatMessage_muted (st : ServerState) (ws : ConnId)
    (ch txt : String) (now : Nat) (newId : String) (user : User) (e : Nat)
    (hu : lookupUser st.users ws = some user)
    (hme : user.muteExpires = some e) (hlt : now < e) :
    handleChatMessage st ws ch txt now newId
      = ⟨st, [(ws, .error
          s!"You are muted. Expires in {jsRoundMinutes (e - now)} minutes."
          false)], []⟩ := by
  unfold handleChatMessage
  rw [hu]
  dsimp only
  rw [hme]
  dsimp only
  rw [if_pos hlt]

theorem lookupUser_sweep (st : ServerState) (s : Nat) (ws : ConnId) :
    lookupUser (sweep st s).1.users ws
      = (lookupUser st.users ws).map (sweepMute s) := by
  show lookupUser (st.users.map (fun p => (p.1, sweepMute s p.2))) ws = _
  exact lookupUser_mapSnd st.users ws (sweepMute s)

/-- The admin (socket 10) and "bob" (socket 2, ip "ip2") both live, before
any moderation action. -/
def stPreMute : ServerState :=
  ⟨[("general", [])],
    [(10, ⟨"root", "id0", "ip0", true, none⟩),
     (2, ⟨"bob", "id2", "ip2", false, none⟩)],
    [], [], [10, 2]⟩

/-- The `admin_mute` event for "bob" with duration 0. -/
def muteBobZero : InEvent :=
  { type := "admin_mute", targetUsername := some "bob", duration := some 0 }

/-- C5 counterexample: the elevated session mutes "bob" for 0 minutes at time
1000; bob's next `message` attempt (at 61000) is indeed rejected, but the
reason names the rounded remaining minutes of the 100-year encoded expiry
("Expires in 52559999 minutes.") and nowhere describes the mute as permanent;
moreover the sweep does clear the mute once the 100-year expiry has passed,
so it is not "never" cleared. -/
theorem mute_zero_reason_not_permanent :
    (handleChatMessage (handleMessage stPreMute 10 muteBobZero "ipa" 1000 "x").state
        2 "general" "hi" 61000 "m").sends
      = [(2, .error "You are muted. Expires in 52559999 minutes." false)] ∧
    ¬ ("permanent".toList <:+:
        "You are muted. Expires in 52559999 minutes.".toList) ∧
    lookupUser (sweep (handleMessage stPreMute 10 muteBobZero "ipa" 1000 "x").state
        3153600001001).1.users 2
      = some ⟨"bob", "id2", "ip2", false, none⟩ :=
  ⟨by decide, by decide, by decide⟩

/-- C5 (amended): a duration-0 mute sets the target's expiry to
`issueTime + 100 years` (3,153,600,000,000 ms); a `message` attempt while the
expiry is still in the future is rejected with a reason naming the rounded
remaining minutes (not one describing the mute as permanent — only the mute
notice sent at mute time says "permanently"); and the periodic sweep leaves
the mute in place at every time at or before that expiry. -/
theorem mute_zero_hundred_years :
    (∀ t0 : Nat, calculateExpiry t0 0 = t0 + 3153600000000) ∧
    (∀ (st : ServerState) (ws : ConnId) (tname : String) (t0 : Nat) (u : User),
        findUserByUsername st.users tname = some u →
        findUserByUsername
            (handleAdminMute st ws tname 0 t0).state.users tname
          = some { u with muteExpires := some (t0 + 3153600000000) }) ∧
    (∀ (st : ServerState) (ws2 : ConnId) (ch txt newId : String)
        (t : Nat) (user : User) (E : Nat),
        lookupUser st.users ws2 = some user →
        user.muteExpires = some E → t < E →
        handleChatMessage st ws2 ch txt t newId
          = ⟨st, [(ws2, .error
              s!"You are muted. Expires in {jsRoundMinutes (E - t)} minutes."
              false)], []⟩) ∧
    (∀ (st : ServerState) (s : Nat) (ws2 : ConnId) (user : User) (E : Nat),
        lookupUser st.users ws2 = some user →
        user.muteExpires = some E → ¬ E < s →
        lookupUser (sweep st s).1.users ws2 = some user) := by
  refine ⟨?_, ?_, ?_, ?_⟩
  · intro t0
    unfold calculateExpiry
    norm_num
  · intro st ws tname t0 u hf
    unfold handleAdminMute
    rw [hf]
    dsimp only
    cases findSocketByUsername
        (setMuteFirst st.users tname (some (calculateExpiry t0 0))) tname <;>
      · rw [findUserByUsername_setMuteFirst, hf]
        have : calculateExpiry t0 0 = t0 + 3153600000000 := by
          unfold calculateExpiry
          norm_num
        rw [this]
        rfl
  · intro st ws2 ch txt newId t user E hu hme hlt
    exact handleChatMessage_muted st ws2 ch txt t newId user E hu hme hlt
  · intro st s ws2 user E hu hme hk
    rw [lookupUser_sweep, hu]
    simp [sweepMute, hme, hk]

/-- Witness for the C5 amended theorem at concrete inputs. -/
theorem mute_zero_hundred_years_witness :
    calculateExpiry 1000 0 = 1000 + 3153600000000 ∧
    findUserByUsername (handleAdminMute stPreMute 10 "bob" 0 1000).state.users
        "bob"
      = some ⟨"bob", "id2", "ip2", false, some (1000 + 3153600000000)⟩ ∧
    lookupUser (sweep stMutedB 3153600001000).1.users 2
      = some ⟨"bob", "id2", "ip2", false, some 3153600001000⟩ :=
  ⟨mute_zero_hundred_years.1 1000,
   mute_zero_hundred_years.2.1 stPreMute 10 "bob" 1000
     ⟨"bob", "id2", "ip2", false, none⟩ (by decide),
   mute_zero_hundred_years.2.2.2 stMutedB 3153600001000 2
     ⟨"bob", "id2", "ip2", false, some 3153600001000⟩ 3153600001000
     (by decide) (by decide) (by decide)⟩

theorem lookupUser_handleClose_ne (st : ServerState) (ws ws0 : ConnId)
    (now : Nat) (hne : ws0 ≠ ws) :
    lookupUser (handleClose st ws now).1.users ws0
      = lookupUser st.users ws0 := by
  unfold handleClose
  dsimp only
  cases h : lookupUser st.users ws
  · rfl
  · exact lookupUser_deleteUser_ne st.users ws ws0 hne

theorem lookupUser_handleClose_self (st : ServerState) (ws : ConnId)
    (now : Nat) :
    lookupUser (handleClose st ws now).1.users ws = none := by
  unfold handleClose
  dsimp only
  cases h : lookupUser st.users ws
  · exact h
  · exact lookupUser_deleteUser_self st.users ws

theorem handleClose_self_not_client (st : ServerState) (ws : ConnId)
    (now : Nat) : ws ∉ (handleClose st ws now).1.clients := by
  unfold handleClose
  dsimp only
  cases h : lookupUser st.users ws <;> simp [List.mem_filter]

theorem serverStep_event_eq (st : ServerState) (ws : ConnId) (m : InEvent)
    (ip newId : String) (now : Nat) :
    serverStep st (.event ws m ip newId) now
      = applyCloses (handleMessage st ws m ip now newId).state
          (handleMessage st ws m ip now newId).sends
          (handleMessage st ws m ip now newId).terminated now := rfl

theorem applyCloses_singleton (st : ServerState)
    (sends : List (ConnId × OutMsg)) (ws : ConnId) (now : Nat) :
    applyCloses st sends [ws] now
      = ((handleClose st ws now).1, sends ++ (handleClose st ws now).2) := rfl

/-- A `join` whose identity is already held by a live session (and not
banned) is rejected as taken, and the joining socket is terminated. -/
theorem handleMessage_join_taken (st : ServerState) (ws ws0 : ConnId)
    (u0 : User) (m : InEvent) (ip newId : String) (now : Nat)
    (hu : lookupUser st.users ws0 = some u0)
    (hban : u0.username ∉ st.bannedUsernames)
    (hty : m.type = "join") (hname : m.username = some u0.username) :
    handleMessage st ws m ip now newId
      = ⟨st, [(ws, .error "This username is already taken." true)], [ws]⟩ := by
  have hsw : strStartsWith "join" "admin_" = false := by decide
  have hred : handleMessage st ws m ip now newId
      = handleJoin st ws u0.username (m.isAdmin.getD false) ip newId now := by
    simp [handleMessage, hty, hsw, hname]
  rw [hred]
  unfold handleJoin
  rw [if_neg hban, if_pos (findUserByUsername_isSome st.users ws0 u0 hu)]

/-- C2: identity uniqueness — every server step and every run from the
initial state preserves pairwise-distinct usernames among live sessions, and
a second `join` from a different connection with an identity already held by
a live session is rejected as taken while the holder's session survives the
step unchanged. -/
theorem identity_uniqueness :
    (∀ (st : ServerState) (inp : ServerInput) (now : Nat),
        (usernames st.users).Nodup →
        (usernames (serverStep st inp now).1.users).Nodup) ∧
    (∀ inputs : List (ServerInput × Nat),
        (usernames (runServer initialState inputs).users).Nodup) ∧
    (∀ (st : ServerState) (ws ws0 : ConnId) (u0 : User) (m : InEvent)
        (ip newId : String) (now : Nat),
        lookupUser st.users ws0 = some u0 →
        m.type = "join" → m.username = some u0.username →
        u0.username ∉ st.bannedUsernames →
        ws ≠ ws0 →
        (ws, OutMsg.error "This username is already taken." true)
            ∈ (serverStep st (.event ws m ip newId) now).2 ∧
        lookupUser (serverStep st (.event ws m ip newId) now).1.users ws0
          = some u0) := by
  refine ⟨serverStep_nodup, ?_, ?_⟩
  · intro inputs
    exact runServer_nodup initialState inputs (by simp [initialState, usernames])
  · intro st ws ws0 u0 m ip newId now hu hty hname hban hne
    have hmsg := handleMessage_join_taken st ws ws0 u0 m ip newId now hu hban
      hty hname
    rw [serverStep_event_eq, hmsg]
    rw [applyCloses_singleton]
    constructor
    · exact List.mem_append_left _ (List.mem_singleton.mpr rfl)
    · exact (lookupUser_handleClose_ne st ws ws0 now
        (fun h => hne h.symm)).trans hu

/-- The `join` event claiming the identity "alice". -/
def joinAlice : InEvent := { type := "join", username := some "alice" }

/-- Witness for the C2 theorem at concrete inputs: socket 2 joining as
"alice" while socket 1 holds "alice" is told the name is taken, and socket
1's session survives. -/
theorem identity_uniqueness_witness :
    (usernames (serverStep wsStateA (.connect 5 "ip9") 0).1.users).Nodup ∧
    (2, OutMsg.error "This username is already taken." true)
        ∈ (serverStep wsStateA (.event 2 joinAlice "ip2" "n2") 7).2 ∧
    lookupUser (serverStep wsStateA (.event 2 joinAlice "ip2" "n2") 7).1.users 1
      = some ⟨"alice", "id1", "ip1", false, none⟩ :=
  ⟨identity_uniqueness.1 wsStateA (.connect 5 "ip9") 0 (by decide),
   (identity_uniqueness.2.2 wsStateA 2 1 ⟨"alice", "id1", "ip1", false, none⟩
      joinAlice "ip2" "n2" 7 (by decide) rfl rfl (by decide) (by decide)).1,
   (identity_uniqueness.2.2 wsStateA 2 1 ⟨"alice", "id1", "ip1", false, none⟩
      joinAlice "ip2" "n2" 7 (by decide) rfl rfl (by decide) (by decide)).2⟩

/-- C10: a connection that already holds a live session and re-sends `join`
with its own current (unbanned) identity matches itself in the duplicate
lookup: it is told the name is taken, its socket is terminated, and the close
handler destroys its formerly live session. -/
theorem self_rejoin_destroys_session (st : ServerState) (ws : ConnId)
    (u : User) (m : InEvent) (ip newId : String) (now : Nat)
    (hu : lookupUser st.users ws = some u)
    (hban : u.username ∉ st.bannedUsernames)
    (hty : m.type = "join") (hname : m.username = some u.username) :
    (ws, OutMsg.error "This username is already taken." true)
        ∈ (serverStep st (.event ws m ip newId) now).2 ∧
    lookupUser (serverStep st (.event ws m ip newId) now).1.users ws = none ∧
    ws ∉ (serverStep st (.event ws m ip newId) now).1.clients := by
  have hmsg := handleMessage_join_taken st ws ws u m ip newId now hu hban
    hty hname
  rw [serverStep_event_eq, hmsg, applyCloses_singleton]
  refine ⟨List.mem_append_left _ (List.mem_singleton.mpr rfl), ?_, ?_⟩
  · exact lookupUser_handleClose_self st ws now
  · exact handleClose_self_not_client st ws now

/-- Witness for the C10 theorem at concrete inputs: socket 1 (holding
"alice") re-joins as "alice" and ends up with no session and no open
socket. -/
theorem self_rejoin_destroys_session_witness :
    (1, OutMsg.error "This username is already taken." true)
        ∈ (serverStep wsStateA (.event 1 joinAlice "ip1" "n9") 3).2 ∧
    lookupUser (serverStep wsStateA (.event 1 joinAlice "ip1" "n9") 3).1.users 1
      = none ∧
    1 ∉ (serverStep wsStateA (.event 1 joinAlice "ip1" "n9") 3).1.clients :=
  self_rejoin_destroys_session wsStateA 1 ⟨"alice", "id1", "ip1", false, none⟩
    joinAlice "ip1" "n9" 3 (by decide) (by decide) rfl rfl

theorem self_mem_addBannedUsername (s : List String) (n : String) :
    n ∈ addBannedUsername s n := by
  unfold addBannedUsername
  split
  · assumption
  · exact List.mem_append_right _ (List.mem_singleton_self n)

/-- C7: an identity ban is recorded permanently regardless of the requested
duration — no step of the server ever removes a banned username, and a join
with a banned identity is always rejected — while an origin ban with
duration D > 0 is recorded with expiry `issueTime + D` minutes, blocks
admission strictly before that expiry, admits once it is reached, and
survives every sweep that runs before it. -/
theorem ban_permanence_asymmetry :
    (∀ (st : ServerState) (ws : ConnId) (tname : String) (dur now : Nat)
        (u : User), findUserByUsername st.users tname = some u →
        tname ∈ (handleAdminBan st ws tname dur "username" now).state.bannedUsernames) ∧
    (∀ (st : ServerState) (inp : ServerInput) (now : Nat) (x : String),
        x ∈ st.bannedUsernames →
        x ∈ (serverStep st inp now).1.bannedUsernames) ∧
    (∀ (st : ServerState) (inputs : List (ServerInput × Nat)) (x : String),
        x ∈ st.bannedUsernames → x ∈ (runServer st inputs).bannedUsernames) ∧
    (∀ (st : ServerState) (ws : ConnId) (name : String) (isAd : Bool)
        (ip newId : String) (now : Nat), name ∈ st.bannedUsernames →
        handleJoin st ws name isAd ip newId now
          = ⟨st, [(ws, .error "This username is banned." true)], [ws]⟩) ∧
    (∀ (st : ServerState) (ws : ConnId) (tname : String) (dur now : Nat)
        (u : User), findUserByUsername st.users tname = some u → dur ≠ 0 →
        lookupBannedIP (handleAdminBan st ws tname dur "ip" now).state.bannedIPs
            u.ip
          = some (now + dur * 60 * 1000)) ∧
    (∀ (st : ServerState) (ws : ConnId) (ip : String) (now e : Nat),
        lookupBannedIP st.bannedIPs ip = some e →
        (now < e →
          handleConnection st ws ip now
            = ⟨st, [(ws, .error "You are banned from this server." true)],
                false⟩) ∧
        (¬ now < e →
          (handleConnection st ws ip now).admitted = true ∧
          (handleConnection st ws ip now).sends
            = [(ws, .connected "Connected to server")] ∧
          (handleConnection st ws ip now).state.bannedIPs
            = deleteBannedIP st.bannedIPs ip ∧
          (handleConnection st ws ip now).state.clients
            = st.clients ++ [ws])) ∧
    (∀ (st : ServerState) (ws : ConnId) (ip : String) (now : Nat),
        lookupBannedIP st.bannedIPs ip = none →
        (handleConnection st ws ip now).admitted = true) ∧
    (∀ (st : ServerState) (ip : String) (now e s : Nat),
        lookupBannedIP st.bannedIPs ip = some e → ¬ e < s →
        lookupBannedIP (sweep st s).1.bannedIPs ip = some e) := by
  refine ⟨?_, serverStep_banned_mono, runServer_banned_mono, ?_, ?_, ?_, ?_, ?_⟩
  · intro st ws tname dur now u hf
    unfold handleAdminBan
    rw [hf]
    dsimp only
    rw [if_pos rfl]
    unfold kickAfterBan
    cases findSocketByUsername st.users tname <;>
      exact self_mem_addBannedUsername st.bannedUsernames tname
  · intro st ws name isAd ip newId now hb
    unfold handleJoin
    rw [if_pos hb]
  · intro st ws tname dur now u hf hdur
    unfold handleAdminBan
    rw [hf]
    dsimp only
    rw [if_neg (by decide : ¬ ("ip" : String) = "username"), if_pos rfl]
    unfold kickAfterBan
    have hexp : calculateExpiry now dur = now + dur * 60 * 1000 := by
      unfold calculateExpiry
      rw [if_neg hdur]
    cases findSocketByUsername st.users tname <;>
      · rw [show (setBannedIP st.bannedIPs u.ip (calculateExpiry now dur))
            = setBannedIP st.bannedIPs u.ip (now + dur * 60 * 1000) from by
            rw [hexp]]
        exact lookupBannedIP_setBannedIP_self st.bannedIPs u.ip _
  · intro st ws ip now e h
    constructor
    · intro hlt
      unfold handleConnection
      rw [h]
      dsimp only
      rw [if_pos hlt]
    · intro hge
      unfold handleConnection
      rw [h]
      dsimp only
      rw [if_neg hge]
      exact ⟨rfl, rfl, rfl, rfl⟩
  · intro st ws ip now h
    unfold handleConnection
    rw [h]
  · intro st ip now e s h hk
    show lookupBannedIP (st.bannedIPs.filter (fun p => ¬ (p.2 < s))) ip
      = some e
    exact lookupBannedIP_sweep_keep st.bannedIPs ip e s h hk

/-- Witness for the C7 theorem at concrete inputs: banning "bob" by username
records the name; banning bob's origin for 5 minutes at time 1000 records
expiry 301000; a connection from that origin at 1000 is blocked and at
301000 admitted; the recorded ban survives a sweep at time 301000. -/
theorem ban_permanence_asymmetry_witness :
    "bob" ∈ (handleAdminBan stPreMute 10 "bob" 7 "username" 0).state.bannedUsernames ∧
    lookupBannedIP (handleAdminBan stPreMute 10 "bob" 5 "ip" 1000).state.bannedIPs
        "ip2"
      = some 301000 ∧
    handleConnection ⟨[], [], [], [("ip2", 301000)], []⟩ 7 "ip2" 1000
      = ⟨⟨[], [], [], [("ip2", 301000)], []⟩,
          [(7, .error "You are banned from this server." true)], false⟩ ∧
    (handleConnection ⟨[], [], [], [("ip2", 301000)], []⟩ 7 "ip2" 301000).admitted
      = true ∧
    lookupBannedIP (sweep ⟨[], [], [], [("ip2", 301000)], []⟩ 301000).1.bannedIPs
        "ip2"
      = some 301000 := by
  refine ⟨?_, ?_, ?_, ?_, ?_⟩
  · exact ban_permanence_asymmetry.1 stPreMute 10 "bob" 7 0
      ⟨"bob", "id2", "ip2", false, none⟩ (by decide)
  · exact ban_permanence_asymmetry.2.2.2.2.1 stPreMute 10 "bob" 5 1000
      ⟨"bob", "id2", "ip2", false, none⟩ (by decide) (by decide)
  · exact (ban_permanence_asymmetry.2.2.2.2.2.1
      ⟨[], [], [], [("ip2", 301000)], []⟩ 7 "ip2" 1000 301000 (by decide)).1
      (by decide)
  · exact ((ban_permanence_asymmetry.2.2.2.2.2.1
      ⟨[], [], [], [("ip2", 301000)], []⟩ 7 "ip2" 301000 301000 (by decide)).2
      (by decide)).1
  · exact ban_permanence_asymmetry.2.2.2.2.2.2.2
      ⟨[], [], [], [("ip2", 301000)], []⟩ "ip2" 0 301000 301000 (by decide)
      (by decide)
